import Mathlib

/-!
Shallow embedding of src/pbotest.cpp.

The program is a single-threaded SDL2/OpenGL render loop (function main,
lines 138-308) that decodes up to ten PNG images into RAM at startup
(load_images_to_ram, lines 121-134), allocates a ring of two pixel-unpack
buffers (PBOs) and two texture objects, and then each frame: polls events,
advances a fixed-timestep clock, computes a background colour wave, and -
once the frame counter reaches 100 and the image list is non-empty -
selects an image index by the schedule ((frame - 100) / 200) % count,
uploads the selected image through the current PBO into uploadingTexture
when the index changes, advances the PBO ring cursor, updates the bouncing
quad physics, and draws the quad with drawingTexture bound.

The embedding splits the loop body into the texture-streaming part
(streamStep, pure natural-number state) and the physics/background part
(physStep, exact rational arithmetic in place of C floats; the C float
literals are modelled by their decimal values).  The full per-frame step
composes both.  SDL_GetTicks is modelled as an input stream of tick values
that the step reads, mirroring line 214, where the result is stored but the
live code uses the constant alwaysDT instead (line 216; the wall-clock dt
is commented out on line 215).  std::sin is modelled by an arbitrary
function parameter, which is sound because no claim depends on the value of
the sine, only on the arguments fed to it.
-/

namespace PboTest

/-- Bytes of one decoded image held in RAM: struct ImageRAM (line 37).
The byte buffer is built in load_images_to_ram (line 128) from exactly
w*h*4 decoded bytes. -/
structure ImageRAM where
  w : Nat
  h : Nat
  rgba : List Nat
deriving DecidableEq

/-- constexpr int START_W = 1920 (line 140). -/
def START_W : Nat := 1920

/-- constexpr int START_H = 1080 (line 141). -/
def START_H : Nat := 1080

/-- int texW = 2048 (line 152). -/
def texW : Nat := 2048

/-- int texH = 2048 (line 153). -/
def texH : Nat := 2048

/-- int texChannels = 4 (line 154). -/
def texChannels : Nat := 4

/-- int texDataSize = texW * texH * texChannels (line 156): the byte count
passed to glBufferData for each PBO and to the memcpy on line 258. -/
def texDataSize : Nat := texW * texH * texChannels

/-- const int numPBOS = 2 (line 158): the staging-ring length. -/
def numPBOS : Nat := 2

/-- SIZE_MAX, the sentinel stored into currentIdx on line 182
("force first upload"); size_t is 64 bits on the target platform. -/
def SIZE_MAX : Nat := 2 ^ 64 - 1

/-- Which upload path the loop body uses for an issued upload.  pboStaged
is the live path of lines 254-264 (map PBO, memcpy, glTexSubImage2D from
the bound PBO); directTexSub is the non-staged full-texture-replace path
that exists only in the commented-out block at lines 249-251. -/
inductive UploadPath
  | pboStaged
  | directTexSub
deriving DecidableEq

/-- The mutable streaming state of the loop: the PBO ring cursor pboIndex
(line 166), the last uploaded image index currentIdx (line 182), and the
two texture roles drawingTexture / uploadingTexture (lines 199-200,
initialised to texIDs[0] and texIDs[1], modelled as handles 0 and 1).
No statement in the loop body ever reassigns drawingTexture or
uploadingTexture. -/
structure StreamState where
  pboIndex : Nat
  currentIdx : Nat
  drawingTexture : Nat
  uploadingTexture : Nat
deriving DecidableEq

/-- Initial streaming state before the first loop iteration
(lines 166, 182, 199-200). -/
def initStream : StreamState :=
  { pboIndex := 0
    currentIdx := SIZE_MAX
    drawingTexture := 0
    uploadingTexture := 1 }

/-- Observable events of one loop iteration's streaming section:
whether the upload block (lines 233-271) ran, the desired index computed on
line 231, the PBO slot bound on line 254, the texture targeted by the
glTexSubImage2D copy on lines 261-263, the image index copied, the byte
count passed to the memcpy on line 258, the upload path taken, and the
texture bound for the quad draw on line 288. -/
structure FrameTrace where
  uploadIssued : Bool
  desiredIdx : Option Nat
  slotUsed : Option Nat
  copyTarget : Option Nat
  srcIdx : Option Nat
  bytesRead : Option Nat
  pathUsed : Option UploadPath
  boundTexture : Option Nat
deriving DecidableEq

/-- Trace of a frame in which the guard on line 230 fails: no streaming
work and no quad draw happen. -/
def inertTrace : FrameTrace :=
  { uploadIssued := false
    desiredIdx := none
    slotUsed := none
    copyTarget := none
    srcIdx := none
    bytesRead := none
    pathUsed := none
    boundTexture := none }

/-- The streaming section of one loop iteration, lines 230-299.
Direct transcription: the guard frame >= 100 && !images.empty() (line 230);
newIdx = ((frame - 100) / 200) % images.size() (line 231); when newIdx
differs from currentIdx the upload block runs: bind pbos[pboIndex]
(line 254), map and memcpy texDataSize bytes (lines 257-258), copy into
uploadingTexture (lines 261-263), advance the ring cursor by
pboIndex++; if (pboIndex == numPBOS) pboIndex = 0 (lines 266-267), and set
currentIdx = newIdx (line 271).  The quad draw binds drawingTexture
(line 288) whenever the guard holds. -/
def streamStep (images : List ImageRAM) (frame : Nat) (s : StreamState) :
    StreamState × FrameTrace :=
  if 100 ≤ frame ∧ images ≠ [] then
    let newIdx := ((frame - 100) / 200) % images.length
    if newIdx ≠ s.currentIdx then
      ({ s with
          pboIndex := if s.pboIndex + 1 = numPBOS then 0 else s.pboIndex + 1
          currentIdx := newIdx },
       { uploadIssued := true
         desiredIdx := some newIdx
         slotUsed := some s.pboIndex
         copyTarget := some s.uploadingTexture
         srcIdx := some newIdx
         bytesRead := some texDataSize
         pathUsed := some UploadPath.pboStaged
         boundTexture := some s.drawingTexture })
    else
      (s, { inertTrace with
              desiredIdx := some newIdx
              boundTexture := some s.drawingTexture })
  else
    (s, inertTrace)

/-- Streaming state after n loop iterations (frames 0..n-1). -/
def streamRun (images : List ImageRAM) : Nat → StreamState
  | 0 => initStream
  | n + 1 => (streamStep images n (streamRun images n)).1

/-- Streaming trace of frame n. -/
def streamTraceAt (images : List ImageRAM) (n : Nat) : FrameTrace :=
  (streamStep images n (streamRun images n)).2

/-- The access images[0].rgba.size() performed unconditionally on
lines 192-193 before the loop (sizing testMemoryCopyPtr), modelled as a
checked lookup: none means the C++ expression indexes out of bounds. -/
def testMemoryCopySize (images : List ImageRAM) : Option Nat :=
  (images[0]?).map (fun img => img.rgba.length)

/-- The spec's schedule function: elapsed frames since warm-up W, divided
by the dwell period, modulo the image count. -/
def scheduleFn (W dwell f n : Nat) : Nat := ((f - W) / dwell) % n

/-- The capability probe of init_sdl, lines 92-95: PBO support is assumed
when the GL version string starts with "2.1" or the extension list names
GL_ARB_pixel_buffer_object.  The extension blob is modelled as the list of
extension names.  The flag is printed on line 113 and never read again. -/
def havePBO (glVersion : String) (glExtensions : List String) : Bool :=
  (glVersion.take 3 == "2.1") ||
    (glExtensions.contains "GL_ARB_pixel_buffer_object")

/-- The upload path the loop uses as a function of the capability flag:
the upload block at lines 254-264 is unconditional, so the chosen path is
constant in the flag; the havePBO local of init_sdl is not even in scope in
main. -/
def uploadPathUsed (_hp : Bool) : UploadPath :=
  UploadPath.pboStaged

/-- The reference scenario image A of the spec (2 by 2, red RGBA8):
16 bytes. -/
def imgA : ImageRAM :=
  { w := 2, h := 2, rgba := [255, 0, 0, 255, 255, 0, 0, 255, 255, 0, 0, 255, 255, 0, 0, 255] }

/-- The reference scenario image B of the spec (2 by 2, blue RGBA8):
16 bytes. -/
def imgB : ImageRAM :=
  { w := 2, h := 2, rgba := [0, 0, 255, 255, 0, 0, 255, 255, 0, 0, 255, 255, 0, 0, 255, 255] }

/-- The reference scenario image set [A, B]. -/
def imagesAB : List ImageRAM := [imgA, imgB]

/-- float alwaysDT = 0.01666f (line 205), the fixed timestep the live code
uses for every frame (line 216; the wall-clock dt on line 215 is commented
out). -/
def alwaysDT : ℚ := 1666 / 100000

/-- The per-frame increment of the time accumulator, 0.016667f
(line 213). -/
def timeIncrement : ℚ := 16667 / 1000000

/-- float quadW = START_W * 0.25f (line 185). -/
def quadW : ℚ := (START_W : ℚ) * (1 / 4)

/-- float quadH = START_H * 0.25f (line 185). -/
def quadH : ℚ := (START_H : ℚ) * (1 / 4)

/-- The physics and clock state of the loop: time (line 204) and the quad
position and velocity (lines 186-189). -/
structure PhysState where
  time : ℚ
  posX : ℚ
  posY : ℚ
  velX : ℚ
  velY : ℚ
deriving DecidableEq

/-- Initial physics state, lines 186-189 and 204. -/
def initPhys : PhysState :=
  { time := 0
    posX := ((START_W : ℚ) - quadW) * (1 / 2)
    posY := ((START_H : ℚ) - quadH) * (1 / 2)
    velX := 250
    velY := 190 }

/-- The clock and bounce-physics section of one loop iteration:
time += 0.016667f runs every frame (line 213); the position update and the
four sequential edge clamps (lines 278-282) run only when the guard on
line 230 holds (they are inside that block), with dt = alwaysDT. -/
def physStep (dw dh : ℚ) (active : Bool) (p : PhysState) : PhysState :=
  let time := p.time + timeIncrement
  if active then
    let posX0 := p.posX + p.velX * alwaysDT
    let posY0 := p.posY + p.velY * alwaysDT
    let posX1 := if posX0 ≤ 0 then (0 : ℚ) else posX0
    let velX1 := if posX0 ≤ 0 then |p.velX| else p.velX
    let posX2 := if dw ≤ posX1 + quadW then dw - quadW else posX1
    let velX2 := if dw ≤ posX1 + quadW then -|velX1| else velX1
    let posY1 := if posY0 ≤ 0 then (0 : ℚ) else posY0
    let velY1 := if posY0 ≤ 0 then |p.velY| else p.velY
    let posY2 := if dh ≤ posY1 + quadH then dh - quadH else posY1
    let velY2 := if dh ≤ posY1 + quadH then -|velY1| else velY1
    { time := time, posX := posX2, posY := posY2, velX := velX2, velY := velY2 }
  else
    { p with time := time }

/-- The background colour wave of lines 220-223, parameterised by the model
of std::sin: each channel is 0.5 + 0.5 * sin(t + phase) with phases 0,
2.094395 and 4.188790. -/
def bgColor (sinq : ℚ → ℚ) (t : ℚ) : ℚ × ℚ × ℚ :=
  (1 / 2 + 1 / 2 * sinq t,
   1 / 2 + 1 / 2 * sinq (t + 2094395 / 1000000),
   1 / 2 + 1 / 2 * sinq (t + 4188790 / 1000000))

/-- The complete per-frame state of the loop: the frame counter (line 202),
the physics state, and the streaming state. -/
structure LoopState where
  frame : Nat
  phys : PhysState
  stream : StreamState
deriving DecidableEq

/-- Everything one frame outputs that later frames do not see: the clear
colour passed to glClearColor (line 227) and the streaming trace. -/
structure FullTrace where
  clearColor : ℚ × ℚ × ℚ
  streamTrace : FrameTrace
deriving DecidableEq

/-- State before the first loop iteration. -/
def initState : LoopState :=
  { frame := 0, phys := initPhys, stream := initStream }

/-- One full iteration of the while loop, lines 206-302.  sinq models
std::sin, images is the decoded image list, dims gives the drawable size
SDL_GL_GetDrawableSize reports at each frame (line 225), and ticks gives
the SDL_GetTicks value read at each frame (line 214) - read into a local
that the live code never uses, since dt is the constant alwaysDT
(line 216). -/
def step (sinq : ℚ → ℚ) (images : List ImageRAM) (dims : Nat → ℚ × ℚ)
    (ticks : Nat → Nat) (s : LoopState) : LoopState × FullTrace :=
  let _now := ticks s.frame
  let dw := (dims s.frame).1
  let dh := (dims s.frame).2
  let active := decide (100 ≤ s.frame ∧ images ≠ [])
  let phys := physStep dw dh active s.phys
  let color := bgColor sinq phys.time
  let stream := (streamStep images s.frame s.stream).1
  let tr := (streamStep images s.frame s.stream).2
  ({ frame := s.frame + 1, phys := phys, stream := stream },
   { clearColor := color, streamTrace := tr })

/-- Full loop state after n iterations. -/
def run (sinq : ℚ → ℚ) (images : List ImageRAM) (dims : Nat → ℚ × ℚ)
    (ticks : Nat → Nat) : Nat → LoopState
  | 0 => initState
  | n + 1 => (step sinq images dims ticks (run sinq images dims ticks n)).1

/-- Full trace of frame n. -/
def traceAt (sinq : ℚ → ℚ) (images : List ImageRAM) (dims : Nat → ℚ × ℚ)
    (ticks : Nat → Nat) (n : Nat) : FullTrace :=
  (step sinq images dims ticks (run sinq images dims ticks n)).2

/-- What stbi_load returns on success for one candidate path (line 126):
width, height, and the decoded bytes as a function of offset. -/
structure RawImage where
  w : Nat
  h : Nat
  bytes : Nat → Nat

/-- Construction of the RAM copy on line 128: exactly w*h*4 bytes are read
from the decoder's buffer, in order. -/
def mkImageRAM (r : RawImage) : ImageRAM :=
  { w := r.w, h := r.h, rgba := (List.range (r.w * r.h * 4)).map r.bytes }

/-- load_images_to_ram, lines 121-134: for i = 0..9 attempt to decode
tex{i}.png (decode i models stbi_load on that path); a failed decode is
skipped with no effect (line 127); a success is pushed onto the back of the
result (line 128).  The second component is whether the warning on line 132
is emitted; the function returns normally either way and main continues
(line 149). -/
def load_images_to_ram (decode : Nat → Option RawImage) :
    List ImageRAM × Bool :=
  let imgs := (List.range 10).foldl
    (fun acc i =>
      match decode i with
      | none => acc
      | some r => acc ++ [mkImageRAM r]) []
  (imgs, imgs.isEmpty)

/-! ### Helper lemmas -/

/-- No branch of the loop body reassigns the two texture-role variables. -/
theorem streamStep_preserves_textures (images : List ImageRAM) (frame : Nat)
    (s : StreamState) :
    (streamStep images frame s).1.drawingTexture = s.drawingTexture ∧
    (streamStep images frame s).1.uploadingTexture = s.uploadingTexture := by
  unfold streamStep
  dsimp only
  split_ifs <;> exact ⟨rfl, rfl⟩

/-- At every frame the drawing texture is texIDs[0] and the uploading
texture is texIDs[1]: the role assignment of lines 199-200 is never
changed. -/
theorem streamRun_textures (images : List ImageRAM) (n : Nat) :
    (streamRun images n).drawingTexture = 0 ∧
    (streamRun images n).uploadingTexture = 1 := by
  induction n with
  | zero => exact ⟨rfl, rfl⟩
  | succ n ih =>
    have h := streamStep_preserves_textures images n (streamRun images n)
    exact ⟨by rw [streamRun, h.1, ih.1], by rw [streamRun, h.2, ih.2]⟩

/-- If frame n binds a texture for the draw call, it is the current
drawingTexture. -/
theorem boundTexture_eq (images : List ImageRAM) (n : Nat) (t : Nat)
    (h : (streamTraceAt images n).boundTexture = some t) :
    t = (streamRun images n).drawingTexture := by
  unfold streamTraceAt streamStep at h
  dsimp only at h
  split_ifs at h <;> simp_all [inertTrace]

/-- If frame n issues a copy into a texture, the target is the current
uploadingTexture. -/
theorem copyTarget_eq (images : List ImageRAM) (n : Nat) (t : Nat)
    (h : (streamTraceAt images n).copyTarget = some t) :
    t = (streamRun images n).uploadingTexture := by
  unfold streamTraceAt streamStep at h
  dsimp only at h
  split_ifs at h <;> simp_all [inertTrace]

/-- Before frame 100 the streaming state is untouched. -/
theorem streamRun_warmup (images : List ImageRAM) (m : Nat) (hm : m ≤ 100) :
    streamRun images m = initStream := by
  induction m with
  | zero => rfl
  | succ m ih =>
    have hm100 : ¬ (100 ≤ m) := by omega
    rw [streamRun, ih (by omega)]
    unfold streamStep
    simp [hm100]

/-- Number of frames below n whose iteration ran the upload block. -/
def uploadCount (images : List ImageRAM) : Nat → Nat
  | 0 => 0
  | n + 1 =>
    uploadCount images n +
      (if (streamTraceAt images n).uploadIssued then 1 else 0)

/-- The ring cursor always stays below the ring length. -/
theorem streamRun_pboIndex_lt (images : List ImageRAM) (n : Nat) :
    (streamRun images n).pboIndex < 2 := by
  induction n with
  | zero => exact Nat.zero_lt_two
  | succ n ih =>
    rw [streamRun]
    unfold streamStep
    dsimp only
    split_ifs <;> simp_all [numPBOS]
    omega

/-- How one frame changes the ring cursor, as a function of whether that
frame ran the upload block. -/
theorem pboIndex_step (images : List ImageRAM) (n : Nat) :
    (streamRun images (n + 1)).pboIndex =
      (if (streamTraceAt images n).uploadIssued then
        (if (streamRun images n).pboIndex + 1 = numPBOS then 0
         else (streamRun images n).pboIndex + 1)
      else (streamRun images n).pboIndex) := by
  rw [streamRun]
  unfold streamTraceAt streamStep
  dsimp only
  split_ifs <;> simp_all [inertTrace]

/-- The ring cursor equals the number of uploads issued so far, modulo the
ring length: each upload advances it by exactly one (mod 2), nothing else
touches it. -/
theorem streamRun_pboIndex_eq (images : List ImageRAM) (n : Nat) :
    (streamRun images n).pboIndex = uploadCount images n % 2 := by
  induction n with
  | zero => rfl
  | succ n ih =>
    have hlt := streamRun_pboIndex_lt images n
    rw [uploadCount, pboIndex_step]
    cases h : (streamTraceAt images n).uploadIssued with
    | false => simpa [h] using ih
    | true =>
      rw [ih] at hlt ⊢
      simp only [h, if_true, numPBOS]
      split_ifs <;> omega

/-- The full loop state projects onto the streaming model: frame counting
and the streaming state do not depend on the physics, the sine model, the
drawable size, or the tick stream. -/
theorem run_proj (sinq : ℚ → ℚ) (images : List ImageRAM)
    (dims : Nat → ℚ × ℚ) (ticks : Nat → Nat) (n : Nat) :
    (run sinq images dims ticks n).frame = n ∧
    (run sinq images dims ticks n).stream = streamRun images n := by
  induction n with
  | zero => exact ⟨rfl, rfl⟩
  | succ n ih =>
    rw [run, streamRun, step]
    exact ⟨by rw [ih.1], by rw [ih.1, ih.2]⟩

/-- The full per-frame trace projects onto the streaming trace. -/
theorem traceAt_proj (sinq : ℚ → ℚ) (images : List ImageRAM)
    (dims : Nat → ℚ × ℚ) (ticks : Nat → Nat) (n : Nat) :
    (traceAt sinq images dims ticks n).streamTrace = streamTraceAt images n := by
  have h := run_proj sinq images dims ticks n
  rw [traceAt, streamTraceAt, step]
  rw [h.1, h.2]

/-- One loop iteration gives the same result whatever SDL_GetTicks
returns: the value read on line 214 is never used. -/
theorem step_ignores_ticks (sinq : ℚ → ℚ) (images : List ImageRAM)
    (dims : Nat → ℚ × ℚ) (ticks1 ticks2 : Nat → Nat) (s : LoopState) :
    step sinq images dims ticks1 s = step sinq images dims ticks2 s := rfl

/-- With an empty image list the physics state other than the clock never
changes: the position update of lines 278-282 sits inside the guard of
line 230. -/
theorem phys_frozen_empty (sinq : ℚ → ℚ) (dims : Nat → ℚ × ℚ)
    (ticks : Nat → Nat) (n : Nat) :
    (run sinq [] dims ticks n).phys.posX = initPhys.posX ∧
    (run sinq [] dims ticks n).phys.posY = initPhys.posY ∧
    (run sinq [] dims ticks n).phys.velX = initPhys.velX ∧
    (run sinq [] dims ticks n).phys.velY = initPhys.velY := by
  induction n with
  | zero => exact ⟨rfl, rfl, rfl, rfl⟩
  | succ n ih =>
    rw [run, step]
    dsimp only
    have hact :
        decide (100 ≤ (run sinq [] dims ticks n).frame ∧
          ([] : List ImageRAM) ≠ []) = false := by simp
    rw [physStep, hact]
    simpa using ih

/-- Pushing onto the back of an accumulator on each successful decode
yields the accumulator followed by the filterMap of the remaining
indices. -/
theorem foldl_pushback (decode : Nat → Option RawImage) (l : List Nat)
    (acc : List ImageRAM) :
    l.foldl
      (fun a i =>
        match decode i with
        | none => a
        | some r => a ++ [mkImageRAM r]) acc =
      acc ++ l.filterMap (fun i => (decode i).map mkImageRAM) := by
  induction l generalizing acc with
  | nil => simp
  | cons i l ih =>
    rw [List.foldl_cons, List.filterMap_cons]
    cases h : decode i with
    | none => simp [h, ih]
    | some r => simp [h, ih]

/-- Successor commutes with remainder. -/
theorem succ_mod_eq (k n : Nat) : (k + 1) % n = (k % n + 1) % n := by
  conv_lhs => rw [Nat.add_mod]
  conv_rhs => rw [Nat.add_mod]
  simp

/-! ### Claim theorems -/

set_option maxRecDepth 200000

/-- C1: the claim says that after the controller issues an upload the
display / upload-target roles of the two textures flip, so that after the
frame-300 upload the display texture holds the newly uploaded image B.
The code refutes this: at frame 300 an upload of image index 1 is issued
with texture 1 (uploadingTexture, line 200) as the copy target, yet the
texture bound for drawing at frame 300 - and at every other frame - is
texture 0, because no statement in the loop ever reassigns the two role
variables set on lines 199-200.  The display texture therefore never holds
any uploaded image, contradicting both the claim and the program's own
header comment ("overwritten every 10 frames ... to show the next
image"). -/
theorem upload_never_swaps_display :
    (streamTraceAt imagesAB 300).uploadIssued = true ∧
    (streamTraceAt imagesAB 300).srcIdx = some 1 ∧
    (streamTraceAt imagesAB 300).copyTarget = some 1 ∧
    (streamTraceAt imagesAB 300).boundTexture = some 0 ∧
    ∀ n, (streamRun imagesAB n).drawingTexture = 0 ∧
      (streamRun imagesAB n).uploadingTexture = 1 :=
  ⟨by decide, by decide, by decide, by decide,
   fun n => streamRun_textures imagesAB n⟩

/-- C2: at every frame, the texture bound for drawing is distinct from the
target of every copy issued at any frame, so the display texture is never
the target of a write while it may be bound for drawing, and its contents
never correspond to any upload - in particular not to one that has not
been fully issued. -/
theorem display_never_upload_target (images : List ImageRAM) (n m t u : Nat)
    (hb : (streamTraceAt images n).boundTexture = some t)
    (hc : (streamTraceAt images m).copyTarget = some u) :
    t ≠ u := by
  have h1 := boundTexture_eq images n t hb
  have h2 := copyTarget_eq images m u hc
  rw [(streamRun_textures images n).1] at h1
  rw [(streamRun_textures images m).2] at h2
  omega

/-- Witness for C2: at frame 101 of the reference scenario texture 0 is
bound for drawing, at frame 100 a copy into texture 1 was issued, and the
two are distinct. -/
theorem display_never_upload_target_witness :
    (streamTraceAt imagesAB 101).boundTexture = some 0 ∧
    (streamTraceAt imagesAB 100).copyTarget = some 1 ∧
    (0 : Nat) ≠ 1 :=
  ⟨by decide, by decide,
   display_never_upload_target imagesAB 101 100 0 1 (by decide) (by decide)⟩

/-- C3: with an empty image set the controller is indeed inert (no frame
counter value ever runs the acquire/write/publish block) and the quad
physics stay frozen so only the background animation runs; but the claim's
in-bounds part fails on the code: before the loop, line 192 evaluates
images[0].rgba.size() unconditionally, and with an empty image list this
indexes out of bounds (undefined behaviour in the C++), which the checked
model reports as none. -/
theorem empty_imageset_oob_and_inert :
    testMemoryCopySize [] = none ∧
    (∀ n, (streamTraceAt [] n).uploadIssued = false) ∧
    (∀ sinq dims ticks n,
      (run sinq [] dims ticks n).phys.posX = initPhys.posX ∧
      (run sinq [] dims ticks n).phys.velX = initPhys.velX) :=
  ⟨rfl,
   fun n => by simp [streamTraceAt, streamStep, inertTrace],
   fun sinq dims ticks n =>
     ⟨(phys_frozen_empty sinq dims ticks n).1,
      (phys_frozen_empty sinq dims ticks n).2.2.1⟩⟩

/-- C4: the claim says every staging copy reads exactly width*height*4
bytes from the image's buffer, checked against the staging capacity.  The
code refutes this: the memcpy on line 258 always copies texDataSize =
2048*2048*4 bytes from img.rgba.data() with no size check, so at the
frame-100 upload of the 2 by 2 reference image A (a 16-byte buffer, sized
w*h*4 by line 128) the copy reads 16777200 bytes past the end of the
buffer. -/
theorem staging_copy_overreads_image_buffer :
    (streamTraceAt imagesAB 100).uploadIssued = true ∧
    (streamTraceAt imagesAB 100).srcIdx = some 0 ∧
    (streamTraceAt imagesAB 100).bytesRead = some texDataSize ∧
    imgA.rgba.length = imgA.w * imgA.h * 4 ∧
    imgA.w * imgA.h * 4 < texDataSize :=
  ⟨by decide, by decide, by decide, by decide, by decide⟩

/-- If a frame ran the upload block, the PBO slot it bound is the current
ring cursor. -/
theorem slotUsed_eq (images : List ImageRAM) (n : Nat)
    (h : (streamTraceAt images n).uploadIssued = true) :
    (streamTraceAt images n).slotUsed =
      some ((streamRun images n).pboIndex) := by
  unfold streamTraceAt streamStep at h ⊢
  dsimp only at h ⊢
  split_ifs at h ⊢ <;> simp_all [inertTrace]

/-- C5: for every frame f at or past warm-up with a non-empty image set,
the desired index the loop computes on line 231 equals the spec's schedule
function with W = 100 and dwell = 200; the index is constant across any
one dwell window; and at each dwell boundary it advances by exactly one
position modulo the image count - no skips, no out-of-order repeats. -/
theorem schedule_window_and_advance (images : List ImageRAM)
    (f f1 f2 k n : Nat) (hf : 100 ≤ f) (hne : images ≠ [])
    (_h1 : 100 ≤ f1) (_h2 : 100 ≤ f2)
    (hw : (f1 - 100) / 200 = (f2 - 100) / 200) (_hn : 0 < n) :
    (streamTraceAt images f).desiredIdx =
      some (scheduleFn 100 200 f images.length) ∧
    scheduleFn 100 200 f1 n = scheduleFn 100 200 f2 n ∧
    scheduleFn 100 200 (100 + 200 * (k + 1)) n =
      (scheduleFn 100 200 (100 + 200 * k) n + 1) % n := by
  refine ⟨?_, ?_, ?_⟩
  · unfold streamTraceAt streamStep
    dsimp only
    rw [if_pos ⟨hf, hne⟩]
    split_ifs <;> rfl
  · unfold scheduleFn
    rw [hw]
  · have e1 : (100 + 200 * (k + 1) - 100) / 200 = k + 1 := by omega
    have e2 : (100 + 200 * k - 100) / 200 = k := by omega
    unfold scheduleFn
    rw [e1, e2, succ_mod_eq]

/-- Witness for C5 in the reference scenario: the desired index at frame
100 matches the schedule function; frames 150 and 260 share a dwell window
and share an index; and the index advances by one (mod 2) across the first
dwell boundary. -/
theorem schedule_window_and_advance_witness :
    (streamTraceAt imagesAB 100).desiredIdx =
      some (scheduleFn 100 200 100 imagesAB.length) ∧
    scheduleFn 100 200 150 2 = scheduleFn 100 200 260 2 ∧
    scheduleFn 100 200 (100 + 200 * (0 + 1)) 2 =
      (scheduleFn 100 200 (100 + 200 * 0) 2 + 1) % 2 :=
  schedule_window_and_advance imagesAB 100 150 260 0 2 (by decide) (by decide)
    (by decide) (by decide) (by decide) (by decide)

/-- C6: with warm-up threshold 100, no frame below 100 issues an upload,
and with a non-empty image set frame 100 itself issues one: the sentinel
SIZE_MAX stored in currentIdx on line 182 differs from every computable
index, so the first frame that passes the guard triggers the upload. -/
theorem warmup_first_upload (images : List ImageRAM) (n : Nat)
    (hn : n < 100) (hne : images ≠ []) :
    (streamTraceAt images n).uploadIssued = false ∧
    (streamTraceAt images 100).uploadIssued = true := by
  constructor
  · unfold streamTraceAt streamStep
    dsimp only
    rw [if_neg (by omega : ¬ (100 ≤ n ∧ images ≠ []))]
    rfl
  · unfold streamTraceAt
    rw [streamRun_warmup images 100 le_rfl]
    unfold streamStep
    dsimp only
    rw [if_pos ⟨le_rfl, hne⟩]
    have hidx : ((100 - 100) / 200) % images.length ≠ initStream.currentIdx := by
      simp [initStream, SIZE_MAX]
    rw [if_pos hidx]

/-- Witness for C6: in the reference scenario frame 99 issues no upload
and frame 100 issues the first one. -/
theorem warmup_first_upload_witness :
    (streamTraceAt imagesAB 99).uploadIssued = false ∧
    (streamTraceAt imagesAB 100).uploadIssued = true :=
  warmup_first_upload imagesAB 99 (by decide) (by decide)

/-- C7: every upload event acquires the staging slot at the current ring
cursor, which equals the number of uploads issued so far modulo the ring
length 2 - so the k-th upload event uses slot k mod 2 and the same slot is
acquired on alternating upload events - and the event advances the cursor
by exactly one modulo the ring length. -/
theorem ring_cursor_roundrobin (images : List ImageRAM) (n : Nat)
    (h : (streamTraceAt images n).uploadIssued = true) :
    (streamTraceAt images n).slotUsed =
      some (uploadCount images n % 2) ∧
    (streamRun images (n + 1)).pboIndex =
      ((streamRun images n).pboIndex + 1) % 2 := by
  constructor
  · rw [slotUsed_eq images n h, streamRun_pboIndex_eq]
  · have hlt := streamRun_pboIndex_lt images n
    rw [pboIndex_step]
    simp only [h, if_true, numPBOS]
    split_ifs <;> omega

/-- Witness for C7: the frame-300 upload (the second upload event of the
reference scenario) uses slot 1 and advances the cursor by one mod 2. -/
theorem ring_cursor_roundrobin_witness :
    (streamTraceAt imagesAB 300).slotUsed =
      some (uploadCount imagesAB 300 % 2) ∧
    (streamRun imagesAB 301).pboIndex =
      ((streamRun imagesAB 300).pboIndex + 1) % 2 :=
  ring_cursor_roundrobin imagesAB 300 (by decide)

/-- C8 counterexample: with a GL version that is not 2.1 and an extension
list without GL_ARB_pixel_buffer_object the capability flag of lines 92-95
is false, yet the upload path used is still the staged PBO path and not
the non-staged full-texture-replace fallback: the upload block of lines
254-264 is unconditional, and the havePBO local of init_sdl is printed on
line 113 and never consulted again (it is not even in scope in main). -/
theorem pbo_no_fallback_counterexample :
    havePBO "3.1 Mesa" [] = false ∧
    uploadPathUsed (havePBO "3.1 Mesa" []) = UploadPath.pboStaged ∧
    uploadPathUsed false ≠ UploadPath.directTexSub ∧
    (streamTraceAt imagesAB 100).pathUsed = some UploadPath.pboStaged :=
  ⟨by decide, rfl, by decide, by decide⟩

/-- C8 amended: the program does not fall back when PBO support is
unavailable; the upload path is independent of the capability flag, and
every upload the loop issues goes through the staged PBO path. -/
theorem upload_path_always_staged (hp : Bool) (images : List ImageRAM)
    (n : Nat) (h : (streamTraceAt images n).uploadIssued = true) :
    uploadPathUsed hp = UploadPath.pboStaged ∧
    (streamTraceAt images n).pathUsed = some UploadPath.pboStaged := by
  refine ⟨rfl, ?_⟩
  unfold streamTraceAt streamStep at h ⊢
  dsimp only at h ⊢
  split_ifs at h ⊢ <;> simp_all [inertTrace]

/-- Witness for the C8 amended theorem at flag false, frame 100 of the
reference scenario. -/
theorem upload_path_always_staged_witness :
    uploadPathUsed false = UploadPath.pboStaged ∧
    (streamTraceAt imagesAB 100).pathUsed = some UploadPath.pboStaged :=
  upload_path_always_staged false imagesAB 100 (by decide)

/-- C9: load_images_to_ram attempts the candidate indices 0..9 in
enumeration order, silently skips any index that fails to decode, returns
the successes in enumeration order (it equals the filterMap of the decoder
over the enumeration), and raises the non-fatal warning of line 132
exactly when the result is empty; the function returns normally either way
and main continues with whatever list it got (line 149). -/
theorem load_images_order_and_warning (decode : Nat → Option RawImage) :
    (load_images_to_ram decode).1 =
      (List.range 10).filterMap (fun i => (decode i).map mkImageRAM) ∧
    ((load_images_to_ram decode).2 = true ↔
      (load_images_to_ram decode).1 = []) := by
  constructor
  · unfold load_images_to_ram
    dsimp only
    rw [foldl_pushback]
    simp
  · unfold load_images_to_ram
    dsimp only
    rw [List.isEmpty_iff]

/-- C10: two runs of the render loop with the same sine model, decoded
images and drawable sizes produce identical loop state (frame counter,
clock, quad position and velocity, ring cursor, active image index,
texture roles) and identical per-frame outputs (background clear colour
and streaming trace) at every frame, whatever SDL_GetTicks returns: the
tick value read on line 214 is the only varying input of the loop body and
it is never used, every update relying on the fixed timestep constants of
lines 205 and 213 and on the frame counter. -/
theorem run_independent_of_wallclock (sinq : ℚ → ℚ)
    (images : List ImageRAM) (dims : Nat → ℚ × ℚ)
    (ticks1 ticks2 : Nat → Nat) (n : Nat) :
    run sinq images dims ticks1 n = run sinq images dims ticks2 n ∧
    traceAt sinq images dims ticks1 n = traceAt sinq images dims ticks2 n := by
  have hrun : ∀ m, run sinq images dims ticks1 m = run sinq images dims ticks2 m := by
    intro m
    induction m with
    | zero => rfl
    | succ m ih =>
      rw [run, run, ih, step_ignores_ticks sinq images dims ticks1 ticks2]
  refine ⟨hrun n, ?_⟩
  rw [traceAt, traceAt, hrun n, step_ignores_ticks sinq images dims ticks1 ticks2]

end PboTest
